import Mathlib

/-!
Verification development for the `craft_demo.ipynb` notebook of the
Cornell Conversational Analysis Toolkit fragment, together with the
`politenessStrategies` documentation stub appended after it.

The notebook is a sequential script: it loads the "conversations gone awry"
corpus, builds a pretrained CRAFT model, tokenizes every utterance, runs the
external `Forecaster.transform`, consolidates per-utterance `pred_score`
values into a per-conversation prediction, prints accuracy / precision /
recall / FPR / F1, computes a "comments until derailment" statistic, and
plots a histogram.  The definitions below are shallow embeddings of the
notebook's own code (its loops, lambdas and constants); external library
behaviour that the notebook merely invokes is represented abstractly.
-/

namespace CraftDemo

/-- The `DEVICE` constant of the notebook (cell 3). -/
def DEVICE : String := "cpu"

/-- `MAX_LENGTH = 80`, the maximum number of tokens CRAFT considers (cell 6). -/
def MAX_LENGTH : Nat := 80

/-- `FORECAST_THRESH = 0.570617`, the decision threshold of cell 9. -/
def FORECAST_THRESH : Rat := 570617 / 1000000

/-- An utterance of the corpus, with the metadata fields the notebook touches.
`pred_score` is `Option Rat` because the external transform leaves `None` on
utterances it did not forecast (e.g. section headers). -/
structure Utterance where
  text : String
  tokens : List String
  comment_has_personal_attack : Bool
  is_section_header : Bool
  pred_score : Option Rat

/-- A conversation of the corpus, with its metadata fields. -/
structure Conversation where
  id : String
  split : String
  conversation_has_personal_attack : Bool
  utts : List Utterance

/-- The notebook's `text_func` lambda (cell 6):
`lambda utt: utt.meta["tokens"][:(MAX_LENGTH-1)]`. -/
def text_func (u : Utterance) : List String :=
  u.tokens.take (MAX_LENGTH - 1)

/-- The notebook's `label_func` lambda (cell 6):
`lambda utt: int(utt.meta['comment_has_personal_attack'])`. -/
def label_func (u : Utterance) : Nat :=
  if u.comment_has_personal_attack then 1 else 0

/-- One iteration of the inner loop of cell 9:
`if utt.meta['pred_score'] is not None and utt.meta['pred_score'] > FORECAST_THRESH:
prediction = 1`. -/
def predStep (pred : Nat) (u : Utterance) : Nat :=
  match u.pred_score with
  | some s => if FORECAST_THRESH < s then 1 else pred
  | none => pred

/-- The consolidated conversation-level prediction of cell 9: the inner loop
over `convo.iter_utterances()` starting from `prediction = 0`. -/
def convoPrediction (c : Conversation) : Nat :=
  c.utts.foldl predStep 0

/-- The conversation-level ground truth label of cell 9:
`int(convo.meta['conversation_has_personal_attack'])`. -/
def convoLabel (c : Conversation) : Nat :=
  if c.conversation_has_personal_attack then 1 else 0

/-- The `preds` list built by cell 9: the outer loop over
`corpus.iter_conversations(selector=lambda c: c.meta['split'] == 'test')`. -/
def consolidatePreds (corpus : List Conversation) : List Nat :=
  corpus.foldl (fun acc c => if c.split == "test" then acc ++ [convoPrediction c] else acc) []

/-- The `labels` list built by the same loop of cell 9. -/
def consolidateLabels (corpus : List Conversation) : List Nat :=
  corpus.foldl (fun acc c => if c.split == "test" then acc ++ [convoLabel c] else acc) []

/-! ### Metrics (cell 10)

`acc = np.mean(preds == labels)` and
`precision, recall, f1, _ = precision_recall_fscore_support(preds, labels, average='binary')`.
Note the argument order of that call: `preds` is passed in the `y_true`
position and `labels` in the `y_pred` position. -/

/-- Count the index positions at which the two lists satisfy `p`. -/
def pairCount (p : Nat → Nat → Bool) (xs ys : List Nat) : Nat :=
  ((xs.zip ys).filter (fun q => p q.1 q.2)).length

/-- True positives as sklearn counts them for `pos_label=1`:
positions with `y_true = 1` and `y_pred = 1`. -/
def truePos (yTrue yPred : List Nat) : Nat :=
  pairCount (fun a b => a == 1 && b == 1) yTrue yPred

/-- False positives as sklearn counts them: `y_true = 0`, `y_pred = 1`. -/
def skFalsePos (yTrue yPred : List Nat) : Nat :=
  pairCount (fun a b => a == 0 && b == 1) yTrue yPred

/-- False negatives as sklearn counts them: `y_true = 1`, `y_pred = 0`. -/
def skFalseNeg (yTrue yPred : List Nat) : Nat :=
  pairCount (fun a b => a == 1 && b == 0) yTrue yPred

/-- sklearn's binary precision `TP / (TP + FP)` of `(y_true, y_pred)`
(division by zero yields 0, as with sklearn's zero division handling). -/
def skPrecision (yTrue yPred : List Nat) : Rat :=
  (truePos yTrue yPred : Rat) / ((truePos yTrue yPred : Rat) + (skFalsePos yTrue yPred : Rat))

/-- sklearn's binary recall `TP / (TP + FN)` of `(y_true, y_pred)`. -/
def skRecall (yTrue yPred : List Nat) : Rat :=
  (truePos yTrue yPred : Rat) / ((truePos yTrue yPred : Rat) + (skFalseNeg yTrue yPred : Rat))

/-- The Precision the notebook prints: cell 10 calls
`precision_recall_fscore_support(preds, labels, average='binary')`, so `preds`
occupies the `y_true` argument and `labels` the `y_pred` argument. -/
def printedPrecision (preds labels : List Nat) : Rat :=
  skPrecision preds labels

/-- The Recall the notebook prints, from the same call of cell 10. -/
def printedRecall (preds labels : List Nat) : Rat :=
  skRecall preds labels

/-- The Accuracy the notebook prints: `np.mean(preds == labels)`, the fraction
of positions at which prediction and label agree. -/
def printedAccuracy (preds labels : List Nat) : Rat :=
  (pairCount (fun a b => a == b) preds labels : Rat) / (preds.length : Rat)

/-- Following the claim's words: a false positive is a conversation with
prediction 1 and label 0. -/
def specFalsePos (preds labels : List Nat) : Nat :=
  pairCount (fun a b => a == 1 && b == 0) preds labels

/-- Following the claim's words: a false negative is a conversation with
prediction 0 and label 1. -/
def specFalseNeg (preds labels : List Nat) : Nat :=
  pairCount (fun a b => a == 0 && b == 1) preds labels

/-- The Precision the claim describes: `TP / (TP + FP)` with a true positive
being prediction 1 and label 1, a false positive prediction 1 and label 0. -/
def specPrecision (preds labels : List Nat) : Rat :=
  (truePos preds labels : Rat) / ((truePos preds labels : Rat) + (specFalsePos preds labels : Rat))

/-- The Recall the claim describes: `TP / (TP + FN)` with a false negative
being prediction 0 and label 1. -/
def specRecall (preds labels : List Nat) : Rat :=
  (truePos preds labels : Rat) / ((truePos preds labels : Rat) + (specFalseNeg preds labels : Rat))

/-- The Accuracy the claim describes: the fraction of conversations whose
prediction equals their ground-truth label. -/
def specAccuracy (preds labels : List Nat) : Rat :=
  (pairCount (fun a b => a == b) preds labels : Rat) / (preds.length : Rat)

/-! ### The comments-until-derail loop (cell 11)

```
utts = [utt for utt in convo.iter_utterances() if not utt.meta['is_section_header']]
derail_idx = len(utts) - 1
for idx in range(1, len(utts)):
    if utts[idx].meta['pred_score'] > FORECAST_THRESH:
        comments_until_derail[convo.id] = derail_idx - (idx-1)
        break
```

Unlike cell 9, the comparison has no `is not None` guard; in Python 3 a
`None > float` comparison raises `TypeError`.  The embedding therefore runs
in `Except Unit`, with `Except.error ()` marking that raised comparison. -/

/-- The filtered utterance list of cell 11 (section headers removed). -/
def considered (c : Conversation) : List Utterance :=
  c.utts.filter (fun u => !u.is_section_header)

/-- The scan of cell 11 over the utterances at indices `idx = 1, 2, ...`:
`derailIdx` is `derail_idx`, `idx` the current index, and the list argument
holds the utterances from position `idx` on.  A `None` score reached by the
scan is the unguarded `None > FORECAST_THRESH` comparison, a `TypeError`. -/
def scanDerailIdx (derailIdx : Nat) : Nat → List Utterance → Except Unit (Option Nat)
  | _, [] => Except.ok none
  | idx, u :: rest =>
    match u.pred_score with
    | none => Except.error ()
    | some s =>
      if FORECAST_THRESH < s then Except.ok (some (derailIdx - (idx - 1)))
      else scanDerailIdx derailIdx (idx + 1) rest

/-- The per-conversation body of cell 11: `ok none` when the loop ends with no
positive forecast, `ok (some k)` when it breaks storing `k`, and `error ()`
when the unguarded comparison hits a `None` score. -/
def commentsUntilDerail (c : Conversation) : Except Unit (Option Nat) :=
  scanDerailIdx ((considered c).length - 1) 1 ((considered c).drop 1)

/-- The failure condition of the cell 11 scan, stated over the examined
utterances (positions 1 and later of the filtered list): some examined
utterance has a `None` score and every utterance the scan visits before it
has a score that is present but not above the threshold. -/
def derailLoopFails (c : Conversation) : Prop :=
  ∃ pre u post, (considered c).drop 1 = pre ++ u :: post ∧ u.pred_score = none ∧
    ∀ u' ∈ pre, ∃ v, u'.pred_score = some v ∧ v ≤ FORECAST_THRESH

/-! ### The notebook as a sequence of steps

One constructor per kind of operation the notebook performs, plus
constructors for constructs the language offers that the notebook never
uses (try/except blocks, thread spawning, callback registration). -/

/-- The kinds of steps a notebook cell can perform. -/
inductive Step where
  | moduleImports
  | loadCorpus
  | setDevice
  | loadModel
  | tokenizeUtterances
  | buildForecaster
  | runTransform
  | summarizeStep
  | consolidatePredictions
  | computeMetrics
  | derailLoopStep
  | plotHistogram
  | tryExceptBlock
  | spawnThread
  | registerCallback
  deriving DecidableEq, Repr

/-- The notebook's step sequence, cell by cell (cells 1 through 12). -/
def notebookSteps : List Step :=
  [Step.moduleImports, Step.loadCorpus, Step.setDevice, Step.loadModel,
   Step.tokenizeUtterances, Step.buildForecaster, Step.runTransform,
   Step.summarizeStep, Step.consolidatePredictions, Step.computeMetrics,
   Step.derailLoopStep, Step.plotHistogram]

/-- The seven steps listed by the claim, in the claimed order. -/
def claimedSteps : List Step :=
  [Step.loadCorpus, Step.loadModel, Step.tokenizeUtterances, Step.runTransform,
   Step.consolidatePredictions, Step.computeMetrics, Step.plotHistogram]

/-! ### The notebook's external boundary calls -/

/-- The shapes of the calls the notebook makes across its external boundary. -/
inductive ExtCall where
  | download (dataset : String)
  | corpusConstruct
  | modelConstruct (device : String)
  | tokenizeCall
  | forecasterConstruct
  | transformCall
  | summarizeCall
  | iterUtterancesCall
  | iterConversationsCall
  | metaAccessCall
  | numpyCall
  | metricsCall
  | plotCall
  deriving DecidableEq, Repr

/-- The external calls the notebook makes, in source order: `download` and the
`Corpus` constructor (cell 2), `CRAFTModel(device_type=DEVICE)` (cell 4),
`iter_utterances` / `craft_tokenize` / `add_meta` (cell 5), the `Forecaster`
constructor (cell 6), `transform` (cell 7), `summarize` (cell 8),
`iter_conversations` and metadata reads (cell 9), numpy and
`precision_recall_fscore_support` (cell 10), `iter_conversations` and
metadata reads again (cell 11), and matplotlib calls (cell 12). -/
def notebookExtCalls : List ExtCall :=
  [ExtCall.download "conversations-gone-awry-corpus", ExtCall.corpusConstruct,
   ExtCall.modelConstruct "cpu", ExtCall.iterUtterancesCall, ExtCall.tokenizeCall,
   ExtCall.metaAccessCall, ExtCall.forecasterConstruct, ExtCall.transformCall,
   ExtCall.summarizeCall, ExtCall.iterConversationsCall, ExtCall.metaAccessCall,
   ExtCall.numpyCall, ExtCall.metricsCall, ExtCall.iterConversationsCall,
   ExtCall.metaAccessCall, ExtCall.plotCall]

/-- Whether a call has one of the four shapes the claim allows: a dataset
download given a name, a model construction given a device-type option, a
tokenization call, or a transform invocation. -/
def claimedShapeB : ExtCall → Bool
  | ExtCall.download _ => true
  | ExtCall.modelConstruct _ => true
  | ExtCall.tokenizeCall => true
  | ExtCall.transformCall => true
  | _ => false

/-- The additional boundary-call shapes that actually occur in the notebook
beyond the four claimed ones. -/
def extraCallB : ExtCall → Bool
  | ExtCall.corpusConstruct => true
  | ExtCall.forecasterConstruct => true
  | ExtCall.summarizeCall => true
  | ExtCall.iterUtterancesCall => true
  | ExtCall.iterConversationsCall => true
  | ExtCall.metaAccessCall => true
  | ExtCall.numpyCall => true
  | ExtCall.metricsCall => true
  | ExtCall.plotCall => true
  | _ => false

/-! ### Metadata access footprint -/

/-- Whether a metadata field is read or written. -/
inductive Access where
  | read
  | write
  deriving DecidableEq, Repr

/-- The metadata accesses written in the notebook's own code: the
`add_meta("tokens", ...)` write of cell 5; the `tokens`,
`comment_has_personal_attack`, `split` and `is_section_header` reads of the
lambdas of cells 6 and 7; and the `split`, `conversation_has_personal_attack`,
`pred_score` and `is_section_header` reads of cells 9 and 11. -/
def notebookDirectMetaAccesses : List (String × Access) :=
  [("tokens", Access.write), ("tokens", Access.read),
   ("comment_has_personal_attack", Access.read),
   ("split", Access.read), ("is_section_header", Access.read),
   ("split", Access.read), ("conversation_has_personal_attack", Access.read),
   ("pred_score", Access.read),
   ("split", Access.read), ("conversation_has_personal_attack", Access.read),
   ("is_section_header", Access.read), ("pred_score", Access.read)]

/-- Modelled from the spec: the implementation of `Forecaster.transform` (and
`summarize`) is repository code that is not under `src/`; the notebook only
calls it.  Per the spec it is "a generic forecasting transform that iterates
conversations and produces per-utterance scores", which the notebook
configures to be recorded under the `pred_score` attribute
(`forecast_prob_attribute_name="pred_score"`).  Its metadata footprint under
this model is a write of `pred_score` (and the `summarize` call a read). -/
def forecasterTransformMetaAccesses : List (String × Access) :=
  [("pred_score", Access.write), ("pred_score", Access.read)]

/-- The complete metadata access footprint of the notebook's run. -/
def notebookMetaAccesses : List (String × Access) :=
  notebookDirectMetaAccesses ++ forecasterTransformMetaAccesses

/-- The six metadata fields the claim lists. -/
def claimedFields : List String :=
  ["tokens", "comment_has_personal_attack", "is_section_header", "split",
   "conversation_has_personal_attack", "pred_score"]

/-! ### The documentation stub appended after the notebook -/

/-- The lines of the `politenessStrategies` documentation stub, verbatim. -/
def docFileLines : List String :=
  ["politenessStrategies",
   "====================",
   "",
   "Computes Politeness Strategies features. See Section 4 of this `paper <http://www.cs.cornell.edu/~cristian/Conversations_gone_awry.html>`_.",
   "",
   "Example usage: `understanding the (mis)use of politeness strategies in conversations gone awry on Wikipedia <https://github.com/CornellNLP/Cornell-Conversational-Analysis-Toolkit/blob/master/examples/conversations-gone-awry/Conversations_Gone_Awry_Prediction.ipynb>`_",
   "",
   ".. automodule:: convokit.politenessStrategies.politenessStrategies",
   "    :members:"]

/-- A line is a reStructuredText directive line when it begins with `.. `. -/
def lineIsDirective (s : String) : Bool :=
  ('.' :: '.' :: ' ' :: []).isPrefixOf s.toList

/-- A line is the automodule API-reference pointer when it begins with
`.. automodule::`. -/
def lineIsAutomodule (s : String) : Bool :=
  (".. automodule::".toList).isPrefixOf s.toList

/-! ### Sequential execution semantics

The notebook is a straight-line script: each cell runs after the previous
one has completed, and an uncaught exception in any cell aborts the rest.
`runStagesFrom` is the sequential semantics of a list of fallible stages
over a state `σ`; `notebookRun` instantiates it with the notebook's ten
effectful stages (cells 2 and 4 through 12). -/

/-- Sequential execution of a list of fallible stages. -/
def runStagesFrom {σ ε : Type} (stages : List (σ → Except ε σ)) (init : σ) : Except ε σ :=
  stages.foldl (fun a f => a.bind f) (Except.ok init)

/-- The notebook's run: load the corpus, load the model, tokenize, build the
forecaster, transform, summarize, consolidate, compute metrics, run the
derail loop, and plot — in that order, each stage fed the state produced by
the stage before it. -/
def notebookRun {σ ε : Type}
    (loadCorpusS loadModelS tokenizeS buildForecasterS transformS summarizeS
     consolidateS metricsS derailS plotS : σ → Except ε σ) (init : σ) : Except ε σ :=
  ((((((((((Except.ok init).bind loadCorpusS).bind loadModelS).bind
    tokenizeS).bind buildForecasterS).bind transformS).bind summarizeS).bind
    consolidateS).bind metricsS).bind derailS).bind plotS

/-- Whether an `Except` computation finished without an uncaught exception. -/
def isOkE {ε α : Type} : Except ε α → Bool
  | Except.ok _ => true
  | Except.error _ => false

/-! ### Concrete sample data used by witnesses -/

/-- A sample utterance whose forecast score lies above the threshold. -/
def c5DemoUtt : Utterance :=
  { text := "you started this", tokens := ["you", "started", "this"],
    comment_has_personal_attack := true, is_section_header := false,
    pred_score := some 1 }

/-- A sample test-split conversation for the consolidation claim. -/
def c5DemoConvo : Conversation :=
  { id := "demo5", split := "test", conversation_has_personal_attack := true,
    utts := [c5DemoUtt] }

/-- A sample first comment carrying a forecast score. -/
def c7DemoUtt0 : Utterance :=
  { text := "hello", tokens := ["hello"],
    comment_has_personal_attack := false, is_section_header := false,
    pred_score := some 0 }

/-- A sample later comment whose `pred_score` was left `None`. -/
def c7DemoUtt1 : Utterance :=
  { text := "hm", tokens := ["hm"],
    comment_has_personal_attack := true, is_section_header := false,
    pred_score := none }

/-- A derailing test-split conversation on which the cell 11 scan reaches an
unguarded `None` comparison. -/
def c7DemoConvo : Conversation :=
  { id := "demo7", split := "test", conversation_has_personal_attack := true,
    utts := [c7DemoUtt0, c7DemoUtt1] }

/-! ## Helper lemmas -/

/-- One iteration of the cell 9 inner loop sets the accumulator to 1 exactly
when it was already 1 or the utterance has a present score above the
threshold. -/
theorem predStep_eq_one_iff (a : Nat) (u : Utterance) :
    predStep a u = 1 ↔
      (a = 1 ∨ ∃ v : Rat, u.pred_score = some v ∧ FORECAST_THRESH < v) := by
  cases hu : u.pred_score with
  | none => simp [predStep, hu]
  | some s =>
    by_cases hs : FORECAST_THRESH < s
    · simp only [predStep, hu]
      simp [hs]
    · simp only [predStep, hu]
      simp only [if_neg hs]
      constructor
      · exact Or.inl
      · rintro (h | ⟨v, hv1, hv2⟩)
        · exact h
        · have : s = v := by injection hv1
          exact absurd hv2 (this ▸ hs)

/-- One iteration of the cell 9 inner loop either keeps the accumulator or
sets it to 1. -/
theorem predStep_self_or_one (a : Nat) (u : Utterance) :
    predStep a u = a ∨ predStep a u = 1 := by
  cases hu : u.pred_score with
  | none => exact Or.inl (by simp [predStep, hu])
  | some s =>
    by_cases hs : FORECAST_THRESH < s
    · exact Or.inr (by simp [predStep, hu, hs])
    · exact Or.inl (by simp [predStep, hu, hs])

/-- The cell 9 inner loop yields 1 exactly when the accumulator was already 1
or some utterance of the list has a present score above the threshold. -/
theorem foldl_predStep_eq_one (l : List Utterance) (a : Nat) :
    l.foldl predStep a = 1 ↔
      (a = 1 ∨ ∃ u ∈ l, ∃ v : Rat, u.pred_score = some v ∧ FORECAST_THRESH < v) := by
  induction l generalizing a with
  | nil => simp
  | cons u l ih =>
    rw [List.foldl_cons, ih, predStep_eq_one_iff]
    constructor
    · rintro ((h | ⟨v, hv1, hv2⟩) | ⟨w, hw, v, hv1, hv2⟩)
      · exact Or.inl h
      · exact Or.inr ⟨u, List.mem_cons_self u l, v, hv1, hv2⟩
      · exact Or.inr ⟨w, List.mem_cons_of_mem u hw, v, hv1, hv2⟩
    · rintro (h | ⟨w, hw, v, hv1, hv2⟩)
      · exact Or.inl (Or.inl h)
      · rcases List.mem_cons.mp hw with h' | h'
        · exact Or.inl (Or.inr ⟨v, h' ▸ hv1, hv2⟩)
        · exact Or.inr ⟨w, h', v, hv1, hv2⟩

/-- The cell 9 inner loop either keeps the accumulator or sets it to 1. -/
theorem foldl_predStep_eq_self_or_one (l : List Utterance) (a : Nat) :
    l.foldl predStep a = a ∨ l.foldl predStep a = 1 := by
  induction l generalizing a with
  | nil => exact Or.inl rfl
  | cons u l ih =>
    rw [List.foldl_cons]
    rcases ih (predStep a u) with h | h
    · rw [h]
      exact predStep_self_or_one a u
    · exact Or.inr h

/-- The accumulating cell 9 outer loop, generalized over its accumulator. -/
theorem consolidate_foldl_general (corpus : List Conversation) (acc : List Nat) :
    corpus.foldl (fun acc c => if c.split == "test" then acc ++ [convoPrediction c] else acc) acc
      = acc ++ (corpus.filter (fun c => c.split == "test")).map convoPrediction := by
  induction corpus generalizing acc with
  | nil => simp
  | cons c l ih =>
    by_cases h : c.split = "test"
    · rw [List.foldl_cons, if_pos (by simp [h]),
        List.filter_cons_of_pos (by simp [h]), List.map_cons, ih]
      simp
    · rw [List.foldl_cons, if_neg (by simp [h]),
        List.filter_cons_of_neg (by simp [h]), ih]

/-- The cell 9 outer loop produces exactly the per-conversation predictions of
the test-split conversations, in corpus order. -/
theorem consolidatePreds_eq (corpus : List Conversation) :
    consolidatePreds corpus
      = (corpus.filter (fun c => c.split == "test")).map convoPrediction := by
  unfold consolidatePreds
  simpa using consolidate_foldl_general corpus []

/-- Once a stage of the sequential run has raised, every later stage is
skipped and the error is returned unchanged. -/
theorem foldl_bind_error {σ ε : Type} (l : List (σ → Except ε σ)) (e : ε) :
    l.foldl (fun a f => a.bind f) (Except.error e) = Except.error e := by
  induction l with
  | nil => rfl
  | cons g l ih => exact ih

/-- The cell 11 scan raises exactly when some utterance it reaches has a
`None` score while every utterance visited before it has a present score not
above the threshold. -/
theorem scanDerailIdx_fails_iff (d : Nat) (l : List Utterance) (i : Nat) :
    isOkE (scanDerailIdx d i l) = false ↔
      ∃ pre u post, l = pre ++ u :: post ∧ u.pred_score = none ∧
        ∀ u' ∈ pre, ∃ v, u'.pred_score = some v ∧ v ≤ FORECAST_THRESH := by
  induction l generalizing i with
  | nil =>
    constructor
    · intro h
      exact absurd h (by simp [scanDerailIdx, isOkE])
    · rintro ⟨pre, u, post, h, -, -⟩
      exact absurd h (by simp)
  | cons u rest ih =>
    cases hu : u.pred_score with
    | none =>
      constructor
      · intro _
        exact ⟨[], u, rest, rfl, hu, by simp⟩
      · intro _
        simp [scanDerailIdx, hu, isOkE]
    | some v =>
      by_cases hv : FORECAST_THRESH < v
      · constructor
        · intro h
          exact absurd h (by simp [scanDerailIdx, hu, hv, isOkE])
        · rintro ⟨pre, w, post, hsplit, hw, hpre⟩
          cases pre with
          | nil =>
            rw [List.nil_append] at hsplit
            injection hsplit with h1 h2
            rw [← h1, hu] at hw
            exact Option.noConfusion hw
          | cons p pre' =>
            rw [List.cons_append] at hsplit
            injection hsplit with h1 h2
            obtain ⟨v', hv'1, hv'2⟩ := hpre p (List.mem_cons_self p pre')
            rw [← h1, hu] at hv'1
            have hvv : v = v' := by injection hv'1
            exact absurd hv (by rw [hvv]; exact not_lt.mpr hv'2)
      · have heq : scanDerailIdx d i (u :: rest) = scanDerailIdx d (i + 1) rest := by
          simp [scanDerailIdx, hu, hv]
        rw [heq, ih]
        constructor
        · rintro ⟨pre, w, post, hsplit, hw, hpre⟩
          refine ⟨u :: pre, w, post, by rw [List.cons_append, hsplit], hw, ?_⟩
          intro u' hu'
          rcases List.mem_cons.mp hu' with h' | h'
          · exact ⟨v, h' ▸ hu, le_of_not_lt hv⟩
          · exact hpre u' h'
        · rintro ⟨pre, w, post, hsplit, hw, hpre⟩
          cases pre with
          | nil =>
            rw [List.nil_append] at hsplit
            injection hsplit with h1 h2
            rw [← h1, hu] at hw
            exact Option.noConfusion hw
          | cons p pre' =>
            rw [List.cons_append] at hsplit
            injection hsplit with h1 h2
            exact ⟨pre', w, post, h2, hw,
              fun u' h' => hpre u' (List.mem_cons_of_mem p h')⟩

/-! ## Claims -/

/-- Claim C1 (code bug): cell 10 passes `(preds, labels)` to
`precision_recall_fscore_support`, whose parameters are `(y_true, y_pred)`.
Consequently the printed Precision is `TP/(TP+FN)` and the printed Recall is
`TP/(TP+FP)` — the two metrics the claim (and the notebook's own markdown,
which defines TP/FP/FN in the standard way) describe, but interchanged.  The
printed Accuracy does equal the fraction of conversations whose prediction
equals their label.  At `preds = [1, 0]`, `labels = [1, 1]` the printed
Precision is 1/2 where the claim requires 1, and the printed Recall is 1
where the claim requires 1/2. -/
theorem c1_metrics_swapped :
    (∀ preds labels : List Nat,
        printedPrecision preds labels = specRecall preds labels ∧
        printedRecall preds labels = specPrecision preds labels ∧
        printedAccuracy preds labels = specAccuracy preds labels)
    ∧ printedPrecision [1, 0] [1, 1] = 1 / 2
    ∧ specPrecision [1, 0] [1, 1] = 1
    ∧ printedRecall [1, 0] [1, 1] = 1
    ∧ specRecall [1, 0] [1, 1] = 1 / 2 := by
  have h1 : truePos [1, 0] [1, 1] = 1 := rfl
  have h2 : skFalsePos [1, 0] [1, 1] = 1 := rfl
  have h3 : skFalseNeg [1, 0] [1, 1] = 0 := rfl
  have h4 : specFalsePos [1, 0] [1, 1] = 0 := rfl
  have h5 : specFalseNeg [1, 0] [1, 1] = 1 := rfl
  refine ⟨fun preds labels => ⟨rfl, rfl, rfl⟩, ?_, ?_, ?_, ?_⟩
  · simp only [printedPrecision, skPrecision, h1, h2]
    norm_num
  · simp only [specPrecision, h1, h4]
    norm_num
  · simp only [printedRecall, skRecall, h1, h3]
    norm_num
  · simp only [specRecall, h1, h5]
    norm_num

/-- Claim C2 (confirmed, with the external transform modelled from the spec):
every metadata field the notebook reads or writes — directly in its own code,
or through the spec-modelled forecasting transform, which records the
per-utterance scores under the configured `pred_score` attribute — lies in
the claimed six-field set, and every claimed field is indeed accessed. -/
theorem c2_meta_fields :
    (notebookMetaAccesses.all (fun p => claimedFields.contains p.1)) = true
    ∧ (claimedFields.all (fun f => notebookMetaAccesses.any (fun p => p.1 == f))) = true :=
  ⟨rfl, rfl⟩

/-- Claim C3 (counterexample): the notebook performs a step outside the
claimed seven — cell 8 calls `forecaster.summarize(corpus)` — so it does not
perform "exactly" the listed steps. -/
theorem c3_extra_step :
    (notebookSteps.contains Step.summarizeStep) = true
    ∧ (claimedSteps.contains Step.summarizeStep) = false :=
  ⟨rfl, rfl⟩

/-- Claim C3 (amended): the seven listed steps each occur exactly once and in
the listed order; restricting the notebook's step sequence to them yields
exactly the claimed sequence.  They are interleaved with further steps
(imports, device constant, forecaster construction, summarize,
comments-until-derail). -/
theorem c3_steps_in_order :
    notebookSteps.filter (fun s => claimedSteps.contains s) = claimedSteps
    ∧ (claimedSteps.all (fun s => notebookSteps.count s == 1)) = true :=
  ⟨rfl, rfl⟩

/-- Claim C4 (counterexample): the notebook makes a boundary call of a shape
outside the claimed four — cell 8's `forecaster.summarize(corpus)`. -/
theorem c4_extra_call :
    (notebookExtCalls.contains ExtCall.summarizeCall) = true
    ∧ claimedShapeB ExtCall.summarizeCall = false :=
  ⟨rfl, rfl⟩

/-- Claim C4 (amended): each of the four claimed call shapes occurs, and every
boundary call of the notebook is of one of the four claimed shapes or one of
the additional shapes that actually occur (corpus construction, forecaster
construction, summarize, corpus iteration, metadata access, numpy, the
sklearn metric function, plotting). -/
theorem c4_boundary_calls :
    (notebookExtCalls.all (fun c => claimedShapeB c || extraCallB c)) = true
    ∧ (notebookExtCalls.contains (ExtCall.download "conversations-gone-awry-corpus")) = true
    ∧ (notebookExtCalls.contains (ExtCall.modelConstruct "cpu")) = true
    ∧ (notebookExtCalls.contains ExtCall.tokenizeCall) = true
    ∧ (notebookExtCalls.contains ExtCall.transformCall) = true :=
  ⟨rfl, rfl, rfl, rfl, rfl⟩

/-- Claim C5 (confirmed): for a test-split conversation, the consolidated
prediction of cell 9 is 1 exactly when some utterance carries a present
`pred_score` strictly above `FORECAST_THRESH`, and 0 otherwise; moreover the
`preds` list of cell 9 is exactly the per-conversation prediction of each
test-split conversation in corpus order. -/
theorem c5_consolidation (c : Conversation) (_h : c.split = "test") :
    (convoPrediction c = 1 ↔
      ∃ u ∈ c.utts, ∃ v : Rat, u.pred_score = some v ∧ FORECAST_THRESH < v)
    ∧ ((¬ ∃ u ∈ c.utts, ∃ v : Rat, u.pred_score = some v ∧ FORECAST_THRESH < v) →
        convoPrediction c = 0)
    ∧ (∀ corpus : List Conversation,
        consolidatePreds corpus
          = (corpus.filter (fun c' => c'.split == "test")).map convoPrediction) := by
  refine ⟨?_, ?_, fun corpus => consolidatePreds_eq corpus⟩
  · unfold convoPrediction
    rw [foldl_predStep_eq_one]
    simp
  · intro hn
    rcases foldl_predStep_eq_self_or_one c.utts 0 with h0 | h1
    · exact h0
    · exact absurd ((foldl_predStep_eq_one c.utts 0).mp h1)
        (by simpa using hn)

/-- Witness for C5 at a concrete test-split conversation. -/
theorem c5_consolidation_witness :
    convoPrediction c5DemoConvo = 1 ↔
      ∃ u ∈ c5DemoConvo.utts, ∃ v : Rat, u.pred_score = some v ∧ FORECAST_THRESH < v :=
  (c5_consolidation c5DemoConvo rfl).1

/-- Claim C6 (confirmed): the notebook contains no try/except step; its run is
the sequential composition of its ten effectful stages; and for the
sequential composition, a failure raised by any stage — after the earlier
stages completed — propagates out as exactly that error, with no recovery,
retry or fallback. -/
theorem c6_uncaught_propagation :
    (notebookSteps.contains Step.tryExceptBlock) = false
    ∧ (∀ (σ ε : Type) (s1 s2 s3 s4 s5 s6 s7 s8 s9 s10 : σ → Except ε σ) (init : σ),
        notebookRun s1 s2 s3 s4 s5 s6 s7 s8 s9 s10 init
          = runStagesFrom [s1, s2, s3, s4, s5, s6, s7, s8, s9, s10] init)
    ∧ (∀ (σ ε : Type) (pre post : List (σ → Except ε σ)) (f : σ → Except ε σ)
        (init s : σ) (e : ε),
        runStagesFrom pre init = Except.ok s → f s = Except.error e →
        runStagesFrom (pre ++ f :: post) init = Except.error e) := by
  refine ⟨rfl, fun σ ε s1 s2 s3 s4 s5 s6 s7 s8 s9 s10 init => rfl, ?_⟩
  intro σ ε pre post f init s e hpre hf
  unfold runStagesFrom at hpre ⊢
  rw [List.foldl_append, hpre, List.foldl_cons,
    show (Except.ok s).bind f = f s from rfl, hf]
  exact foldl_bind_error post e

/-- Witness for C6: a concrete pipeline whose second stage raises; the error
comes out of the whole run unchanged. -/
theorem c6_uncaught_propagation_witness :
    runStagesFrom ([fun n => Except.ok (n + 1)] ++
        (fun _ => Except.error "missing dataset") :: [fun n => Except.ok n]) 0
      = Except.error "missing dataset" :=
  c6_uncaught_propagation.2.2 Nat String [fun n => Except.ok (n + 1)]
    [fun n => Except.ok n] (fun _ => Except.error "missing dataset") 0 1
    "missing dataset" rfl rfl

/-- Claim C7 (confirmed): the cell 11 loop raises exactly when, among the
utterances it examines (positions 1 and later of the section-header-filtered
list), a `None` `pred_score` occurs at or before the first above-threshold
score — so the loop is total precisely under the precondition that every
utterance it examines has a non-`None` score — and a derailing test-split
conversation exhibiting the failure exists. -/
theorem c7_derail_loop_partial :
    (∀ c : Conversation, c.split = "test" → c.conversation_has_personal_attack = true →
      (isOkE (commentsUntilDerail c) = false ↔ derailLoopFails c))
    ∧ (∃ c : Conversation, c.split = "test" ∧ c.conversation_has_personal_attack = true ∧
        derailLoopFails c ∧ isOkE (commentsUntilDerail c) = false) := by
  constructor
  · intro c _ _
    exact scanDerailIdx_fails_iff ((considered c).length - 1) ((considered c).drop 1) 1
  · exact ⟨c7DemoConvo, rfl, rfl, ⟨[], c7DemoUtt1, [], rfl, rfl, by simp⟩, rfl⟩

/-- Witness for C7 at a concrete derailing test-split conversation. -/
theorem c7_derail_loop_partial_witness :
    isOkE (commentsUntilDerail c7DemoConvo) = false ↔ derailLoopFails c7DemoConvo :=
  c7_derail_loop_partial.1 c7DemoConvo rfl rfl

/-- Claim C8 (confirmed): `text_func` truncates the utterance's `tokens`
metadata to its first `MAX_LENGTH - 1 = 79` elements, so the text supplied
to the model has length at most 79 whatever the utterance's token count. -/
theorem c8_text_func_truncation :
    ∀ u : Utterance, text_func u = u.tokens.take 79 ∧ (text_func u).length ≤ 79 := by
  intro u
  refine ⟨rfl, ?_⟩
  show (u.tokens.take 79).length ≤ 79
  rw [List.length_take]
  exact min_le_left _ _

/-- Claim C9 (counterexample): the documentation stub appended after the
notebook has nine lines, not one. -/
theorem c9_doc_not_one_line :
    docFileLines.length = 9 ∧ (docFileLines.length == 1) = false :=
  ⟨rfl, rfl⟩

/-- Claim C9 (amended): the stub is a nine-line reStructuredText fragment
whose only directive line is the single automodule API-reference pointer
(followed by its `:members:` option line); it contains a heading, underline,
prose and blank lines besides, and no executable statements. -/
theorem c9_doc_stub :
    docFileLines.length = 9
    ∧ (docFileLines.filter (fun s => lineIsDirective s)).length = 1
    ∧ docFileLines.filter (fun s => lineIsAutomodule s)
        = [".. automodule:: convokit.politenessStrategies.politenessStrategies"]
    ∧ (docFileLines.all (fun s => !(lineIsDirective s) || lineIsAutomodule s)) = true :=
  ⟨rfl, rfl, rfl, rfl⟩

/-- Claim C10 (confirmed): the notebook's step sequence contains no
thread-spawning or callback-registering step, and in the sequential
semantics a stage appended to the script runs on the completed result of all
preceding stages — every step completes before the next begins. -/
theorem c10_sequential :
    (notebookSteps.contains Step.spawnThread) = false
    ∧ (notebookSteps.contains Step.registerCallback) = false
    ∧ (∀ (σ ε : Type) (stages : List (σ → Except ε σ)) (f : σ → Except ε σ) (init : σ),
        runStagesFrom (stages ++ [f]) init = (runStagesFrom stages init).bind f) := by
  refine ⟨rfl, rfl, ?_⟩
  intro σ ε stages f init
  unfold runStagesFrom
  rw [List.foldl_append]
  rfl

end CraftDemo
